import Mathlib

/-!
Verification of the ingestion and device-registry core of the IoT waste
platform (`backend/mqtt_subscriber.py` and the device endpoints of
`dashboard/api/main.py`).

The relational store is modelled as an explicit `DBState` (lists of rows);
each Python function that touches the database becomes a pure state
transformer.  Numeric telemetry values are modelled as rationals (`ℚ`);
nullable SQL columns and optional JSON fields are `Option`s.  A Python
exception that a handler catches (with rollback) is modelled as the
corresponding failure result with the state left unchanged.
-/

/-- A JSON field that may be missing from the payload, present but `null`,
or present with a string value.  `data.get('mac_address', '')` yields `""`
for a missing key but `None` for a key bound to `null`. -/
inductive StrField where
  | missing : StrField
  | nullv : StrField
  | val (s : String) : StrField
deriving DecidableEq, Repr

/-- A row of the `sensors` table (the device registry).
`mac_address` is nullable (cleared on deregistration); `weight_offset`
is nullable with `NULL` read back as `0.0` by the subscriber. -/
structure Sensor where
  sensorId : Nat
  sensorCode : String
  macAddress : Option String
  binId : Int
  weightOffset : Option ℚ
  manufacturer : String
  status : String
deriving DecidableEq, Repr

/-- A row of the `waste_bins` table (containers). -/
structure Bin where
  binId : Int
  binCode : String
  status : String
deriving DecidableEq, Repr

/-- A row of the `sensor_readings` table, as inserted by
`DatabaseManager.insert_sensor_reading`. -/
structure Reading where
  sensorId : Nat
  binId : Int
  fillLevel : Option ℚ
  distanceCm : Option ℚ
  weightKg : Option ℚ
  temperatureC : Option ℚ
  humidity : Option ℚ
  gasLevel : Option ℚ
  batteryLevel : Option ℚ
  signalStrength : Option ℚ
  timestamp : String
deriving DecidableEq, Repr

/-- A row of the `alerts` table, as inserted by
`DatabaseManager._create_alert` (always with `status = 'open'`). -/
structure Alert where
  binId : Int
  alertType : String
  severity : String
  message : String
  status : String
deriving DecidableEq, Repr

/-- The relational store.  `nextSensorId` models the serial primary key of
`sensors`. -/
structure DBState where
  sensors : List Sensor
  bins : List Bin
  readings : List Reading
  alerts : List Alert
  nextSensorId : Nat
deriving DecidableEq, Repr

/-- An inbound MQTT telemetry payload (the JSON object decoded in
`MQTTSubscriber.on_message`).  All fields are optional in the JSON. -/
structure Payload where
  macAddress : StrField
  sensorCode : Option String
  binId : Option Int
  binCode : Option String
  fillLevel : Option ℚ
  distanceCm : Option ℚ
  weightKg : Option ℚ
  temperatureC : Option ℚ
  humidity : Option ℚ
  gasLevel : Option ℚ
  batteryLevel : Option ℚ
  signalStrength : Option ℚ
  timestamp : Option String
deriving DecidableEq, Repr

/-- Python `str.strip()` with no argument: remove leading and trailing
whitespace. -/
def pyStrip (s : String) : String :=
  ⟨((s.data.dropWhile Char.isWhitespace).reverse.dropWhile
      Char.isWhitespace).reverse⟩

/-- Python `str.upper()` (the hardware addresses and codes involved are
ASCII, where this is plain ASCII case mapping). -/
def pyToUpper (s : String) : String :=
  ⟨s.data.map Char.toUpper⟩

/-- Python `str.strip(chars)` as used with `'-'`: remove leading and
trailing dashes. -/
def stripDashes (s : String) : String :=
  ⟨((s.data.dropWhile (· == '-')).reverse.dropWhile (· == '-')).reverse⟩

/-- Python slicing `s[:n]`. -/
def strTake (s : String) (n : Nat) : String :=
  ⟨s.data.take n⟩

/-- `data.get('mac_address', '').strip().upper()`: a missing key gives
`""`; a string is trimmed and uppercased; a `null` value makes `.strip()`
raise `AttributeError` (modelled as `none`). -/
def pyStripUpper : StrField → Option String
  | .missing => some ""
  | .nullv => none
  | .val s => some (pyToUpper (pyStrip s))

/-- `SELECT ... FROM sensors WHERE mac_address = %s` — rows whose
`mac_address` is `NULL` never match. -/
def findByMac (sensors : List Sensor) (mac : String) : Option Sensor :=
  sensors.find? (fun s => s.macAddress == some mac)

/-- `SELECT ... FROM sensors WHERE sensor_code = %s`; a payload without a
`sensor_code` binds SQL `NULL`, which matches no row. -/
def findByCode (sensors : List Sensor) (code : Option String) : Option Sensor :=
  match code with
  | none => none
  | some c => sensors.find? (fun s => s.sensorCode == c)

/-- Lines 106–109 of `insert_sensor_reading`: the weight is replaced by
`raw + offset` only when the raw weight is present and the offset is
non-zero; otherwise it is passed through unchanged. -/
def applyCalibration (raw : Option ℚ) (off : ℚ) : Option ℚ :=
  match raw with
  | some w => if off ≠ 0 then some (w + off) else some w
  | none => none

/-- `data.get('timestamp') or datetime.now()...`: a missing or empty
timestamp defaults to the processing time `now`. -/
def tsOrNow (ts : Option String) (now : String) : String :=
  match ts with
  | some t => if t = "" then now else t
  | none => now

/-- `DatabaseManager.insert_sensor_reading`.  Returns the success flag and
the resulting store.  Failure paths (caught exception with rollback, or an
unknown device) leave the store unchanged and return `false`. -/
def insertSensorReading (db : DBState) (now : String) (data : Payload) :
    Bool × DBState :=
  match pyStripUpper data.macAddress with
  | none => (false, db)
  | some mac =>
    let macResult : Option Sensor :=
      if mac ≠ "" then findByMac db.sensors mac else none
    match macResult with
    | some reg =>
      -- MAC match: offset from the registration; bin_id overridden from
      -- the registration, the payload's bin_id is ignored here.
      let off : ℚ := reg.weightOffset.getD 0
      let r : Reading :=
        { sensorId := reg.sensorId
          binId := reg.binId
          fillLevel := data.fillLevel
          distanceCm := data.distanceCm
          weightKg := applyCalibration data.weightKg off
          temperatureC := data.temperatureC
          humidity := data.humidity
          gasLevel := data.gasLevel
          batteryLevel := data.batteryLevel
          signalStrength := data.signalStrength
          timestamp := tsOrNow data.timestamp now }
      (true, { db with readings := db.readings ++ [r] })
    | none =>
      match findByCode db.sensors data.sensorCode with
      | none => (false, db)
      | some reg =>
        let off : ℚ := reg.weightOffset.getD 0
        match data.binId with
        | none => (false, db)   -- `int(None)` raises; caught, rolled back
        | some b =>
          let r : Reading :=
            { sensorId := reg.sensorId
              binId := b
              fillLevel := data.fillLevel
              distanceCm := data.distanceCm
              weightKg := applyCalibration data.weightKg off
              temperatureC := data.temperatureC
              humidity := data.humidity
              gasLevel := data.gasLevel
              batteryLevel := data.batteryLevel
              signalStrength := data.signalStrength
              timestamp := tsOrNow data.timestamp now }
          (true, { db with readings := db.readings ++ [r] })

/-- Rendering of a rational in an alert message.  The Python code formats
with one decimal place (`:.1f`); the exact text is not observable by any
claim, only the non-numeric parts of the messages are. -/
def fmtQ (q : ℚ) : String :=
  toString q.num ++ (if q.den == 1 then "" else "/" ++ toString q.den)

/-- The dedup predicate of `_create_alert`: an alert row for the same
container and kind with `status = 'open'`. -/
def isOpenFor (b : Int) (t : String) (a : Alert) : Bool :=
  a.binId == b && a.alertType == t && a.status == "open"

/-- `SELECT alert_id FROM alerts WHERE bin_id = %s AND alert_type = %s AND
status = 'open'` returned a row. -/
def openAlertExists (alerts : List Alert) (b : Int) (t : String) : Bool :=
  alerts.any (isOpenFor b t)

/-- `DatabaseManager._create_alert`: check-then-insert with its own
try/except.  `fault = true` models a database error raised during the
check or the insert: it is caught inside `_create_alert`, the transaction
is rolled back, and the store is left unchanged.  `binCode` is used only
for logging in the source. -/
def createAlert (db : DBState) (fault : Bool) (b : Int) (_binCode : String)
    (t sev msg : String) : DBState :=
  if fault then db
  else if openAlertExists db.alerts b t then db
  else { db with alerts := db.alerts ++ [⟨b, t, sev, msg, "open"⟩] }

/-- Block "Check for bin full alert" of `check_and_create_alert`
(`fill_level = data.get('fill_level', 0)`; `if fill_level >= 90: ...
elif fill_level >= 75: ...`). -/
def binFullRule (db : DBState) (F : Bool) (b : Int) (data : Payload) :
    DBState :=
  if data.fillLevel.getD 0 ≥ 90 then
    createAlert db F b (data.binCode.getD "None") "bin_full" "critical"
      ("Bin " ++ data.binCode.getD "None" ++ " is " ++
        fmtQ (data.fillLevel.getD 0) ++ "% full - requires immediate collection")
  else if data.fillLevel.getD 0 ≥ 75 then
    createAlert db F b (data.binCode.getD "None") "bin_full" "high"
      ("Bin " ++ data.binCode.getD "None" ++ " is " ++
        fmtQ (data.fillLevel.getD 0) ++ "% full - collection needed soon")
  else db

/-- Block "Check for low battery" of `check_and_create_alert`
(`battery_level = data.get('battery_level', 100)`; `if battery_level < 20`). -/
def batteryRule (db : DBState) (F : Bool) (b : Int) (data : Payload) :
    DBState :=
  if data.batteryLevel.getD 100 < 20 then
    createAlert db F b (data.binCode.getD "None") "sensor_fault" "medium"
      ("Low battery warning for " ++ data.binCode.getD "None" ++ ": " ++
        fmtQ (data.batteryLevel.getD 100) ++ "%")
  else db

/-- Block "Check for unusual temperature" of `check_and_create_alert`
(`temperature = data.get('temperature_c', 25)`; `if temperature > 45`). -/
def temperatureRule (db : DBState) (F : Bool) (b : Int) (data : Payload) :
    DBState :=
  if data.temperatureC.getD 25 > 45 then
    createAlert db F b (data.binCode.getD "None") "unusual_activity" "high"
      ("High temperature detected in " ++ data.binCode.getD "None" ++ ": " ++
        fmtQ (data.temperatureC.getD 25) ++ " degC")
  else db

/-- `DatabaseManager.check_and_create_alert`: the three rule blocks run in
order on the shared connection.  `f` assigns to each alert kind whether
its `_create_alert` call hits a database fault.  A payload without a
`bin_id` makes `int(None)` raise; the outer except swallows it and no
rule runs. -/
def checkAndCreateAlert (db : DBState) (f : String → Bool) (data : Payload) :
    DBState :=
  match data.binId with
  | none => db
  | some b =>
    temperatureRule
      (batteryRule (binFullRule db (f "bin_full") b data)
        (f "sensor_fault") b data)
      (f "unusual_activity") b data

/-- `MQTTSubscriber.on_message` after a successful JSON decode: the
reading is stored and, only on success, the alert rules are evaluated.
Note that the *original* decoded payload is passed to
`check_and_create_alert`, not the copy whose `bin_id` was overridden
inside `insert_sensor_reading`. -/
def onMessage (db : DBState) (f : String → Bool) (now : String)
    (data : Payload) : DBState :=
  let res := insertSensorReading db now data
  if res.1 then checkAndCreateAlert res.2 f data else res.2

/-- The alert rows appended to the store by one `check_and_create_alert`
invocation (alerts are only ever appended). -/
def alertsAdded (db : DBState) (f : String → Bool) (data : Payload) :
    List Alert :=
  (checkAndCreateAlert db f data).alerts.drop db.alerts.length

/-- One character of `re.sub(r'[^A-Za-z0-9\-_]', '-', device_name)`. -/
def sanitizeCodeChar (c : Char) : Char :=
  if c.isAlphanum || c == '-' || c == '_' then c else '-'

/-- `re.sub(r'[^A-Za-z0-9\-_]', '-', device_name)[:40].strip('-')`. -/
def baseCode (deviceName : String) : String :=
  stripDashes ⟨(deviceName.data.map sanitizeCodeChar).take 40⟩

/-- `mac.replace(':', '')[-6:]`: the last six hex digits of the address. -/
def macSuffix6 (mac : String) : String :=
  let hex := mac.data.filter (· ≠ ':')
  ⟨hex.drop (hex.length - 6)⟩

/-- `mac[-5:].replace(':', '')`: the last five characters of the address
with colons removed. -/
def macTail5 (mac : String) : String :=
  let l := mac.data
  ⟨(l.drop (l.length - 5)).filter (· ≠ ':')⟩

/-- The regex of `_normalize_mac`: six colon-separated uppercase hex octet
pairs (`([0-9A-F]{2}:){5}[0-9A-F]{2}`, full match). -/
def isHexUpper (c : Char) : Bool :=
  c.isDigit || ('A' ≤ c && c ≤ 'F')

/-- Split a character list at colons (Python `str.split(':')` /
the colon structure matched by the regex). -/
def splitColons : List Char → List Char → List (List Char)
  | [], cur => [cur.reverse]
  | c :: rest, cur =>
    if c == ':' then cur.reverse :: splitColons rest []
    else splitColons rest (c :: cur)

/-- Full-match test of the hardware-address syntax. -/
def isValidMac (s : String) : Bool :=
  let parts := splitColons s.data []
  parts.length == 6 && parts.all (fun p => p.length == 2 && p.all isHexUpper)

/-- `_normalize_mac`: trim and uppercase, then validate; a malformed
address raises `HTTPException(400, ...)`, modelled as `Except.error` with
the descriptive message (the source message is in Thai; only its presence
and per-address content matter to the claims). -/
def normalizeMac (mac : String) : Except String String :=
  let m := pyToUpper (pyStrip mac)
  if isValidMac m then Except.ok m else Except.error ("MAC address invalid: " ++ m)

/-- One entry of the `POST /api/devices/register` body. -/
structure DeviceItem where
  macAddress : String
  deviceName : String
  binId : Int
  weightOffset : ℚ
deriving DecidableEq, Repr

/-- Per-entry outcome kind reported by the register endpoint. -/
inductive RegAction where
  | created : RegAction
  | updated : RegAction
deriving DecidableEq, Repr

/-- One element of the `registered` list of the response (`sensor_code`
is present only for newly created devices). -/
structure RegResult where
  mac : String
  binCode : String
  sensorCode : Option String
  action : RegAction
deriving DecidableEq, Repr

/-- One element of the `errors` list of the response. -/
structure RegError where
  mac : String
  errorMsg : String
deriving DecidableEq, Repr

/-- `SELECT bin_id, bin_code FROM waste_bins WHERE bin_id = %s AND
status = 'active'`. -/
def findActiveBin (bins : List Bin) (b : Int) : Option Bin :=
  bins.find? (fun w => w.binId == b && w.status == "active")

/-- `SELECT sensor_id FROM sensors WHERE sensor_code = %s` returned a row. -/
def codeExists (sensors : List Sensor) (code : String) : Bool :=
  sensors.any (fun s => s.sensorCode == code)

/-- The loop body of `register_devices`.  Each successful entry is
committed immediately (`conn.commit()` per entry), so entries processed
before a raised `HTTPException` persist; the exception itself is re-raised
by `except HTTPException: raise` and aborts the remaining entries,
returning `Except.error`. -/
def registerDevicesLoop : DBState → List DeviceItem → List RegResult →
    List RegError → DBState × Except String (List RegResult × List RegError)
  | db, [], acc, errs => (db, Except.ok (acc.reverse, errs.reverse))
  | db, item :: rest, acc, errs =>
    match normalizeMac item.macAddress with
    | Except.error e => (db, Except.error e)
    | Except.ok mac =>
      let deviceName := if pyStrip item.deviceName = "" then mac
                        else pyStrip item.deviceName
      match findActiveBin db.bins item.binId with
      | none =>
        registerDevicesLoop db rest acc
          ({ mac := mac, errorMsg := "bin not found: " ++ toString item.binId } :: errs)
      | some binRow =>
        match findByMac db.sensors mac with
        | some _ =>
          -- `UPDATE sensors SET bin_id, manufacturer, weight_offset
          --  WHERE mac_address = %s`
          let db' := { db with sensors := db.sensors.map (fun s =>
            if s.macAddress == some mac then
              { s with binId := item.binId, manufacturer := deviceName,
                       weightOffset := some item.weightOffset }
            else s) }
          registerDevicesLoop db' rest
            ({ mac := mac, binCode := binRow.binCode, sensorCode := none,
               action := RegAction.updated } :: acc) errs
        | none =>
          let base := baseCode deviceName
          let code0 := if base = "" then "MAC-" ++ macSuffix6 mac else base
          let code := if codeExists db.sensors code0 then
                        strTake code0 36 ++ "-" ++ macTail5 mac
                      else code0
          let newSensor : Sensor :=
            { sensorId := db.nextSensorId, sensorCode := code,
              macAddress := some mac, binId := item.binId,
              weightOffset := some item.weightOffset,
              manufacturer := deviceName, status := "active" }
          let db' := { db with sensors := db.sensors ++ [newSensor],
                               nextSensorId := db.nextSensorId + 1 }
          registerDevicesLoop db' rest
            ({ mac := mac, binCode := binRow.binCode, sensorCode := some code,
               action := RegAction.created } :: acc) errs

/-- `POST /api/devices/register` (after the session check): an empty
device list is rejected outright; otherwise the entries are processed in
order. -/
def registerDevices (db : DBState) (items : List DeviceItem) :
    DBState × Except String (List RegResult × List RegError) :=
  if items.isEmpty then (db, Except.error "no device data")
  else registerDevicesLoop db items [] []

/-- Whether the HTTP call as a whole failed (an exception propagated out
of the handler instead of a structured per-entry response). -/
def respIsError (r : Except String (List RegResult × List RegError)) : Bool :=
  match r with
  | Except.error _ => true
  | Except.ok _ => false

/-- The registration of the end-to-end scenario: device
`AA:BB:CC:DD:EE:01` bound to container 7 with calibration offset −0.3. -/
def sensorC1 : Sensor :=
  { sensorId := 1, sensorCode := "SCALE-01",
    macAddress := some "AA:BB:CC:DD:EE:01", binId := 7,
    weightOffset := some (-(3 : ℚ)/10), manufacturer := "Scale A",
    status := "active" }

/-- Store holding only the scenario registration. -/
def dbC1 : DBState :=
  { sensors := [sensorC1], bins := [], readings := [], alerts := [],
    nextSensorId := 2 }

/-- The scenario payload
`{mac: "aa:bb:cc:dd:ee:01", bin_id: 99, weight_kg: 12.0, fill_level: 92}`. -/
def payloadC1 : Payload :=
  { macAddress := StrField.val "aa:bb:cc:dd:ee:01", sensorCode := none,
    binId := some 99, binCode := none, fillLevel := some 92,
    distanceCm := none, weightKg := some 12, temperatureC := none,
    humidity := none, gasLevel := none, batteryLevel := none,
    signalStrength := none, timestamp := none }

/-- C1: computed behaviour of the code on the end-to-end scenario.  The
stored reading does get container 7 and weight 11.7 as the claim states,
but the critical `bin_full` alert is opened for container 99 — the
payload's asserted container — not for container 7: `on_message` hands the
raw payload to `check_and_create_alert`, while the registry override of
`bin_id` happened only on the local copy inside `insert_sensor_reading`. -/
theorem C1_code_behavior :
    ((onMessage dbC1 (fun _ => false) "2026-01-01T00:00:00+07:00"
        payloadC1).readings.map (fun r => (r.binId, r.weightKg)) =
      [((7 : Int), some ((117 : ℚ)/10))]) ∧
    ((onMessage dbC1 (fun _ => false) "2026-01-01T00:00:00+07:00"
        payloadC1).alerts.map (fun a => (a.binId, a.alertType, a.severity)) =
      [((99 : Int), "bin_full", "critical")]) := by
  have hmac : pyToUpper (pyStrip "aa:bb:cc:dd:ee:01") = "AA:BB:CC:DD:EE:01" := by
    decide
  have hne : ("AA:BB:CC:DD:EE:01" : String) = "" ↔ False := by
    simp
  norm_num [onMessage, insertSensorReading, checkAndCreateAlert, binFullRule,
    batteryRule, temperatureRule, createAlert, openAlertExists, isOpenFor,
    findByMac, findByCode, pyStripUpper, applyCalibration, tsOrNow,
    alertsAdded, dbC1, payloadC1, sensorC1, hmac, hne, List.find?]

/-- Store for the batch-registration scenario: one active container,
no devices yet. -/
def dbC2 : DBState :=
  { sensors := [], bins := [⟨5, "BIN-05", "active"⟩], readings := [],
    alerts := [], nextSensorId := 1 }

/-- Well-formed first entry of the batch. -/
def goodItem : DeviceItem :=
  { macAddress := "AA:BB:CC:DD:EE:01", deviceName := "Scale-A", binId := 5,
    weightOffset := 0 }

/-- Second entry with a malformed hardware address. -/
def badItem : DeviceItem :=
  { macAddress := "not-a-mac", deviceName := "Scale-B", binId := 5,
    weightOffset := 0 }

/-- C2, counterexample: a batch of a well-formed entry followed by a
malformed-address entry does NOT yield a per-entry error alongside a
"created" result — the malformed address makes `_normalize_mac` raise
`HTTPException(400)`, which `register_devices` re-raises, turning the
whole call into a total failure with no structured results. -/
theorem C2_counterexample :
    respIsError (registerDevices dbC2 [goodItem, badItem]).2 = true := by
  decide

/-- C2, amended: the well-formed first entry is registered and committed
before the malformed second entry is reached, so the device persists in
the store; but the call as a whole aborts with the malformed-MAC error
instead of returning the per-entry results (per-entry isolation applies
only to unknown/inactive-container errors). -/
theorem C2_amended_behavior :
    ((registerDevices dbC2 [goodItem, badItem]).1.sensors.map
        (fun s => (s.macAddress, s.binId, s.sensorCode)) =
      [(some "AA:BB:CC:DD:EE:01", (5 : Int), "Scale-A")]) ∧
    (registerDevices dbC2 [goodItem, badItem]).2 =
      Except.error ("MAC address invalid: NOT-A-MAC") := by
  constructor
  · decide
  · rfl

/-- C6: calibration — the stored weight equals raw + offset exactly when
the raw weight is present and the offset is non-zero; with a zero offset
the raw value passes through unchanged, and an absent raw weight stays
absent. -/
theorem C6_calibration (raw : Option ℚ) (off : ℚ) :
    (∀ w, raw = some w → off ≠ 0 → applyCalibration raw off = some (w + off)) ∧
    (off = 0 → applyCalibration raw off = raw) ∧
    (raw = none → applyCalibration raw off = none) := by
  refine ⟨?_, ?_, ?_⟩
  · intro w hw hoff
    subst hw
    simp [applyCalibration, hoff]
  · intro hoff
    subst hoff
    cases raw <;> simp [applyCalibration]
  · intro hr
    subst hr
    simp [applyCalibration]

/-- Witness for C6 at concrete inputs: raw weight 12 with offset −0.3,
offset 0, and an absent raw weight. -/
theorem C6_calibration_witness :
    applyCalibration (some 12) (-(3 : ℚ)/10) = some (12 + -(3 : ℚ)/10) ∧
    applyCalibration (some 12) 0 = some 12 ∧
    applyCalibration none ((5 : ℚ)) = none :=
  ⟨(C6_calibration (some 12) (-(3 : ℚ)/10)).1 12 rfl (by norm_num),
   (C6_calibration (some 12) 0).2.1 rfl,
   (C6_calibration none 5).2.2 rfl⟩

/-- C9: absent telemetry fields take the non-triggering defaults
(`fill_level` → 0, `battery_level` → 100, `temperature_c` → 25), so a
reading that omits all three opens no alert at all: the alert-engine state
is unchanged. -/
theorem C9_absent_defaults (db : DBState) (f : String → Bool) (data : Payload)
    (h1 : data.fillLevel = none) (h2 : data.batteryLevel = none)
    (h3 : data.temperatureC = none) :
    checkAndCreateAlert db f data = db := by
  unfold checkAndCreateAlert
  cases hb : data.binId with
  | none => rfl
  | some b =>
    norm_num [binFullRule, batteryRule, temperatureRule, h1, h2, h3]

/-- Witness for C9: a payload carrying only a container id and a weight. -/
def payloadC9 : Payload :=
  { macAddress := StrField.missing, sensorCode := some "S1",
    binId := some 4, binCode := none, fillLevel := none, distanceCm := none,
    weightKg := some 3, temperatureC := none, humidity := none,
    gasLevel := none, batteryLevel := none, signalStrength := none,
    timestamp := none }

/-- Witness state for C9 (one open alert present, to show nothing is
touched even then). -/
def dbC9 : DBState :=
  { sensors := [], bins := [], readings := [],
    alerts := [⟨4, "bin_full", "high", "m", "open"⟩], nextSensorId := 1 }

/-- Witness for C9 at the concrete payload and state. -/
theorem C9_absent_defaults_witness :
    checkAndCreateAlert dbC9 (fun _ => false) payloadC9 = dbC9 :=
  C9_absent_defaults dbC9 (fun _ => false) payloadC9 rfl rfl rfl

/-- C10: a payload whose `mac_address` key is present but bound to `null`
makes `.strip()` raise before any lookup; the handler catches it, rolls
back and reports failure, so no reading is stored and no alert rule runs —
even when the payload's device code identifies a registered device. -/
theorem C10_null_mac_rejected (db : DBState) (f : String → Bool)
    (now : String) (data : Payload) (h : data.macAddress = StrField.nullv) :
    insertSensorReading db now data = (false, db) ∧
    onMessage db f now data = db := by
  have hins : insertSensorReading db now data = (false, db) := by
    unfold insertSensorReading
    rw [h]
    rfl
  exact ⟨hins, by unfold onMessage; rw [hins]; rfl⟩

/-- Witness registry for C10: the device code `CODE-1` is registered. -/
def dbC10 : DBState :=
  { sensors := [{ sensorId := 3, sensorCode := "CODE-1", macAddress := none,
                  binId := 2, weightOffset := some 1, manufacturer := "m",
                  status := "active" }],
    bins := [], readings := [], alerts := [], nextSensorId := 4 }

/-- Witness payload for C10: `mac_address` is `null` while `sensor_code`
names the registered device. -/
def payloadC10 : Payload :=
  { macAddress := StrField.nullv, sensorCode := some "CODE-1",
    binId := some 2, binCode := none, fillLevel := some 95,
    distanceCm := none, weightKg := some 1, temperatureC := none,
    humidity := none, gasLevel := none, batteryLevel := none,
    signalStrength := none, timestamp := none }

/-- Witness for C10 at the concrete state and payload. -/
theorem C10_null_mac_rejected_witness :
    insertSensorReading dbC10 "T" payloadC10 = (false, dbC10) ∧
    onMessage dbC10 (fun _ => false) "T" payloadC10 = dbC10 :=
  C10_null_mac_rejected dbC10 (fun _ => false) "T" payloadC10 rfl

/-- C4: registry precedence — when the payload's hardware address
(trimmed, uppercased) matches a registered device, the stored reading
takes the registration's container id and calibration offset, and the
payload's asserted container id has no influence on the stored reading
(replacing it by anything yields the same result). -/
theorem C4_registry_precedence (db : DBState) (now : String) (data : Payload)
    (s : String) (reg : Sensor)
    (hm : data.macAddress = StrField.val s)
    (hne : pyToUpper (pyStrip s) ≠ "")
    (hfind : findByMac db.sensors (pyToUpper (pyStrip s)) = some reg) :
    ∃ r : Reading,
      insertSensorReading db now data =
        (true, { db with readings := db.readings ++ [r] }) ∧
      r.binId = reg.binId ∧
      r.sensorId = reg.sensorId ∧
      r.weightKg = applyCalibration data.weightKg (reg.weightOffset.getD 0) ∧
      (∀ b, insertSensorReading db now { data with binId := b } =
        insertSensorReading db now data) := by
  refine ⟨{ sensorId := reg.sensorId, binId := reg.binId,
            fillLevel := data.fillLevel, distanceCm := data.distanceCm,
            weightKg := applyCalibration data.weightKg (reg.weightOffset.getD 0),
            temperatureC := data.temperatureC, humidity := data.humidity,
            gasLevel := data.gasLevel, batteryLevel := data.batteryLevel,
            signalStrength := data.signalStrength,
            timestamp := tsOrNow data.timestamp now }, ?_, rfl, rfl, rfl, ?_⟩
  · simp only [insertSensorReading, pyStripUpper, hm, hne, if_true,
      ne_eq, not_false_eq_true, hfind]
  · intro b
    simp only [insertSensorReading, pyStripUpper, hm, hne, if_true,
      ne_eq, not_false_eq_true, hfind]

/-- C5: unknown-device rejection is terminal — when neither the hardware
address (if any) nor the device code matches a registration, the store is
left exactly as it was: no reading row and no alert. -/
theorem C5_unknown_device_terminal (db : DBState) (f : String → Bool)
    (now : String) (data : Payload)
    (h1 : ∀ s, data.macAddress = StrField.val s →
      findByMac db.sensors (pyToUpper (pyStrip s)) = none)
    (h2 : findByCode db.sensors data.sensorCode = none) :
    insertSensorReading db now data = (false, db) ∧
    onMessage db f now data = db := by
  have hins : insertSensorReading db now data = (false, db) := by
    cases hm : data.macAddress with
    | missing =>
      simp only [insertSensorReading, pyStripUpper, hm, ne_eq,
        not_true_eq_false, if_false, h2]
    | nullv =>
      simp only [insertSensorReading, pyStripUpper, hm]
    | val s =>
      by_cases hc : pyToUpper (pyStrip s) = ""
      · simp only [insertSensorReading, pyStripUpper, hm, hc, ne_eq,
          not_true_eq_false, if_false, h2]
      · simp only [insertSensorReading, pyStripUpper, hm, hc, ne_eq,
          not_false_eq_true, if_true, h1 s hm, h2]
  refine ⟨hins, ?_⟩
  unfold onMessage
  rw [hins]
  rfl

/-- Witness for C4 at the scenario registration and payload. -/
theorem C4_registry_precedence_witness :
    ∃ r : Reading,
      insertSensorReading dbC1 "T" payloadC1 =
        (true, { dbC1 with readings := dbC1.readings ++ [r] }) ∧
      r.binId = sensorC1.binId ∧
      r.sensorId = sensorC1.sensorId ∧
      r.weightKg = applyCalibration payloadC1.weightKg
        (sensorC1.weightOffset.getD 0) ∧
      (∀ b, insertSensorReading dbC1 "T" { payloadC1 with binId := b } =
        insertSensorReading dbC1 "T" payloadC1) := by
  have hmac : pyToUpper (pyStrip "aa:bb:cc:dd:ee:01") = "AA:BB:CC:DD:EE:01" := by
    decide
  exact C4_registry_precedence dbC1 "T" payloadC1 "aa:bb:cc:dd:ee:01" sensorC1
    rfl (by decide) (by simp [findByMac, dbC1, sensorC1, hmac])

/-- Witness registry for C5: one device, with a different address and a
different code from the witness payload. -/
def dbC5 : DBState :=
  { sensors := [{ sensorId := 9, sensorCode := "OTHER",
                  macAddress := some "AA:AA:AA:AA:AA:AA", binId := 1,
                  weightOffset := none, manufacturer := "m",
                  status := "active" }],
    bins := [], readings := [], alerts := [], nextSensorId := 10 }

/-- Witness payload for C5: unregistered address and unregistered code,
with telemetry that would otherwise raise a critical alert. -/
def payloadC5 : Payload :=
  { macAddress := StrField.val "11:22:33:44:55:66",
    sensorCode := some "NOPE", binId := some 1, binCode := some "B1",
    fillLevel := some 99, distanceCm := none, weightKg := some 2,
    temperatureC := some 50, humidity := none, gasLevel := none,
    batteryLevel := some 5, signalStrength := none, timestamp := none }

/-- Witness for C5 at the concrete state and payload. -/
theorem C5_unknown_device_terminal_witness :
    insertSensorReading dbC5 "T" payloadC5 = (false, dbC5) ∧
    onMessage dbC5 (fun _ => false) "T" payloadC5 = dbC5 :=
  C5_unknown_device_terminal dbC5 (fun _ => false) "T" payloadC5
    (fun s hs => by
      simp only [payloadC5] at hs
      injection hs with hs2
      subst hs2
      decide)
    (by decide)

/-- The invariant of the Alert Engine: at most one open alert per
(container, kind) pair. -/
def atMostOneOpen (alerts : List Alert) : Prop :=
  ∀ b t, alerts.countP (isOpenFor b t) ≤ 1

/-- Storing a reading never touches the alerts table. -/
theorem insertSensorReading_alerts (db : DBState) (now : String)
    (data : Payload) :
    ((insertSensorReading db now data).2).alerts = db.alerts := by
  unfold insertSensorReading
  repeat' split
  all_goals (try (dsimp only; repeat' split))
  all_goals rfl

/-- What `_create_alert` appends to the alerts table. -/
theorem createAlert_alerts (db : DBState) (fault : Bool) (b : Int)
    (c t sev msg : String) :
    (createAlert db fault b c t sev msg).alerts =
      db.alerts ++
        (if fault then []
         else if openAlertExists db.alerts b t then []
         else [⟨b, t, sev, msg, "open"⟩]) := by
  unfold createAlert
  split_ifs <;> simp

/-- The dedup check distributes over appended alert rows. -/
theorem openAlertExists_append (l l' : List Alert) (b : Int) (t : String) :
    openAlertExists (l ++ l') b t =
      (openAlertExists l b t || openAlertExists l' b t) := by
  simp [openAlertExists, List.any_append]

/-- A `_create_alert` call for one kind leaves the dedup check for any
other kind unchanged. -/
theorem openAlertExists_createAlert_ne {db : DBState} {fault : Bool}
    {b : Int} {c t sev msg : String} {b' : Int} {t' : String} (ht : t ≠ t') :
    openAlertExists (createAlert db fault b c t sev msg).alerts b' t' =
      openAlertExists db.alerts b' t' := by
  rw [createAlert_alerts, openAlertExists_append]
  split_ifs <;> simp [openAlertExists, isOpenFor, beq_iff_eq, ht]

/-- `_create_alert` preserves the at-most-one-open invariant. -/
theorem atMostOneOpen_createAlert {db : DBState} {fault : Bool} {b : Int}
    {c t sev msg : String} (h : atMostOneOpen db.alerts) :
    atMostOneOpen (createAlert db fault b c t sev msg).alerts := by
  intro b' t'
  rw [createAlert_alerts, List.countP_append]
  split_ifs with h1 h2
  · simpa using h b' t'
  · simpa using h b' t'
  · by_cases hmatch : isOpenFor b' t' ⟨b, t, sev, msg, "open"⟩ = true
    · have hbt : b = b' ∧ t = t' := by
        simpa [isOpenFor] using hmatch
      have hex : db.alerts.any (isOpenFor b t) = false := by
        rw [Bool.not_eq_true] at h2
        exact h2
      have h0 : db.alerts.countP (isOpenFor b' t') = 0 := by
        rw [List.countP_eq_zero]
        intro a ha
        rw [← hbt.1, ← hbt.2]
        exact List.any_eq_false.mp hex a ha
      simp [h0, List.countP_cons, hmatch]
    · simp only [List.countP_cons, List.countP_nil, hmatch, if_false,
        Nat.zero_add, Nat.add_zero]
      simpa using h b' t'

/-- The bin-full rule preserves the invariant. -/
theorem atMostOneOpen_binFullRule {db : DBState} {F : Bool} {b : Int}
    {data : Payload} (h : atMostOneOpen db.alerts) :
    atMostOneOpen (binFullRule db F b data).alerts := by
  unfold binFullRule
  split_ifs <;> first | exact h | exact atMostOneOpen_createAlert h

/-- The battery rule preserves the invariant. -/
theorem atMostOneOpen_batteryRule {db : DBState} {F : Bool} {b : Int}
    {data : Payload} (h : atMostOneOpen db.alerts) :
    atMostOneOpen (batteryRule db F b data).alerts := by
  unfold batteryRule
  split_ifs <;> first | exact h | exact atMostOneOpen_createAlert h

/-- The temperature rule preserves the invariant. -/
theorem atMostOneOpen_temperatureRule {db : DBState} {F : Bool} {b : Int}
    {data : Payload} (h : atMostOneOpen db.alerts) :
    atMostOneOpen (temperatureRule db F b data).alerts := by
  unfold temperatureRule
  split_ifs <;> first | exact h | exact atMostOneOpen_createAlert h

/-- The whole alert engine preserves the invariant. -/
theorem atMostOneOpen_check (db : DBState) (f : String → Bool)
    (data : Payload) (h : atMostOneOpen db.alerts) :
    atMostOneOpen (checkAndCreateAlert db f data).alerts := by
  unfold checkAndCreateAlert
  cases data.binId with
  | none => exact h
  | some b =>
    exact atMostOneOpen_temperatureRule
      (atMostOneOpen_batteryRule (atMostOneOpen_binFullRule h))

/-- C3: under the serialized (single-consumer) processing model, message
processing preserves "at most one open alert per (container, kind)"; and
whenever a rule fires for a pair that already has an open alert,
`_create_alert` inserts nothing and leaves the store — in particular the
existing alert, whatever its severity — completely unmodified. -/
theorem C3_alert_dedup_invariant (db : DBState) (f : String → Bool)
    (now : String) (data : Payload) (h : atMostOneOpen db.alerts) :
    atMostOneOpen (onMessage db f now data).alerts ∧
    (∀ (fault : Bool) (b : Int) (c t sev msg : String),
      openAlertExists db.alerts b t = true →
      createAlert db fault b c t sev msg = db) := by
  constructor
  · unfold onMessage
    have halerts : atMostOneOpen ((insertSensorReading db now data).2).alerts := by
      intro b t
      rw [insertSensorReading_alerts]
      exact h b t
    dsimp only
    split
    · exact atMostOneOpen_check _ f data halerts
    · exact halerts
  · intro fault b c t sev msg hex
    unfold createAlert
    split_ifs with h1
    · rfl
    · rfl


/-- Witness registration for C3: device `S3` bound to container 7. -/
def sensorC3 : Sensor :=
  { sensorId := 2, sensorCode := "S3", macAddress := none, binId := 7,
    weightOffset := none, manufacturer := "m", status := "active" }

/-- Witness store for C3: the device is registered and container 7
already has an open high-severity `bin_full` alert, so the invariant
holds non-trivially and the dedup premise is satisfiable. -/
def dbC3 : DBState :=
  { sensors := [sensorC3], bins := [], readings := [],
    alerts := [⟨7, "bin_full", "high",
      "Bin B7 is 80% full - collection needed soon", "open"⟩],
    nextSensorId := 3 }

/-- Witness payload for C3: resolves via the device code, fill 95 makes
the `bin_full` rule fire into the existing open alert (deduped, not
escalated to critical), and battery 10 makes the `sensor_fault` rule
actually insert a new alert. -/
def payloadC3 : Payload :=
  { macAddress := StrField.missing, sensorCode := some "S3", binId := some 7,
    binCode := some "B7", fillLevel := some 95, distanceCm := none,
    weightKg := some 1, temperatureC := none, humidity := none,
    gasLevel := none, batteryLevel := some 10, signalStrength := none,
    timestamp := none }

/-- Witness for C3 at the concrete state and payload: the reading is
stored, the fired `bin_full` rule is deduplicated against the existing
open alert, a `sensor_fault` alert is really inserted, and the invariant
still holds afterwards. -/
theorem C3_alert_dedup_invariant_witness :
    atMostOneOpen (onMessage dbC3 (fun _ => false) "T" payloadC3).alerts ∧
    (∀ (fault : Bool) (b : Int) (c t sev msg : String),
      openAlertExists dbC3.alerts b t = true →
      createAlert dbC3 fault b c t sev msg = dbC3) :=
  C3_alert_dedup_invariant dbC3 (fun _ => false) "T" payloadC3
    (by
      intro b t
      have h : dbC3.alerts.countP (isOpenFor b t) ≤ dbC3.alerts.length :=
        List.countP_le_length (isOpenFor b t)
      exact le_trans h (by simp [dbC3]))

/-- Alert rows the bin-full rule appends when no open `bin_full` alert
exists for the container and its persistence fault flag is `F`. -/
def binFullAdded (F : Bool) (b : Int) (data : Payload) : List Alert :=
  if F then []
  else if data.fillLevel.getD 0 ≥ 90 then
    [⟨b, "bin_full", "critical",
      "Bin " ++ data.binCode.getD "None" ++ " is " ++
        fmtQ (data.fillLevel.getD 0) ++ "% full - requires immediate collection",
      "open"⟩]
  else if data.fillLevel.getD 0 ≥ 75 then
    [⟨b, "bin_full", "high",
      "Bin " ++ data.binCode.getD "None" ++ " is " ++
        fmtQ (data.fillLevel.getD 0) ++ "% full - collection needed soon",
      "open"⟩]
  else []

/-- Alert rows the battery rule appends under the same conditions. -/
def batteryAdded (F : Bool) (b : Int) (data : Payload) : List Alert :=
  if F then []
  else if data.batteryLevel.getD 100 < 20 then
    [⟨b, "sensor_fault", "medium",
      "Low battery warning for " ++ data.binCode.getD "None" ++ ": " ++
        fmtQ (data.batteryLevel.getD 100) ++ "%", "open"⟩]
  else []

/-- Alert rows the temperature rule appends under the same conditions. -/
def temperatureAdded (F : Bool) (b : Int) (data : Payload) : List Alert :=
  if F then []
  else if data.temperatureC.getD 25 > 45 then
    [⟨b, "unusual_activity", "high",
      "High temperature detected in " ++ data.binCode.getD "None" ++ ": " ++
        fmtQ (data.temperatureC.getD 25) ++ " degC", "open"⟩]
  else []

/-- Characterization of the bin-full rule's effect on the alerts table. -/
theorem binFullRule_alerts {db : DBState} {F : Bool} {b : Int}
    {data : Payload} (h1 : openAlertExists db.alerts b "bin_full" = false) :
    (binFullRule db F b data).alerts = db.alerts ++ binFullAdded F b data := by
  unfold binFullRule binFullAdded
  split_ifs <;> simp_all [createAlert_alerts]

/-- Characterization of the battery rule's effect on the alerts table. -/
theorem batteryRule_alerts {db : DBState} {F : Bool} {b : Int}
    {data : Payload} (h2 : openAlertExists db.alerts b "sensor_fault" = false) :
    (batteryRule db F b data).alerts = db.alerts ++ batteryAdded F b data := by
  unfold batteryRule batteryAdded
  split_ifs <;> simp_all [createAlert_alerts]

/-- Characterization of the temperature rule's effect on the alerts
table. -/
theorem temperatureRule_alerts {db : DBState} {F : Bool} {b : Int}
    {data : Payload}
    (h3 : openAlertExists db.alerts b "unusual_activity" = false) :
    (temperatureRule db F b data).alerts =
      db.alerts ++ temperatureAdded F b data := by
  unfold temperatureRule temperatureAdded
  split_ifs <;> simp_all [createAlert_alerts]

/-- The bin-full rule does not affect dedup checks for other kinds. -/
theorem binFullRule_exists_ne {db : DBState} {F : Bool} {b : Int}
    {data : Payload} {b' : Int} {t : String} (ht : "bin_full" ≠ t) :
    openAlertExists (binFullRule db F b data).alerts b' t =
      openAlertExists db.alerts b' t := by
  unfold binFullRule
  split_ifs <;> first | rfl | rw [openAlertExists_createAlert_ne ht]

/-- The battery rule does not affect dedup checks for other kinds. -/
theorem batteryRule_exists_ne {db : DBState} {F : Bool} {b : Int}
    {data : Payload} {b' : Int} {t : String} (ht : "sensor_fault" ≠ t) :
    openAlertExists (batteryRule db F b data).alerts b' t =
      openAlertExists db.alerts b' t := by
  unfold batteryRule
  split_ifs <;> first | rfl | rw [openAlertExists_createAlert_ne ht]

/-- Master characterization: when the container has no open alert of any
of the three kinds, one alert-engine run appends exactly the three rules'
contributions, in order. -/
theorem checkAlert_alerts {db : DBState} {f : String → Bool} {data : Payload}
    {b : Int} (hb : data.binId = some b)
    (h1 : openAlertExists db.alerts b "bin_full" = false)
    (h2 : openAlertExists db.alerts b "sensor_fault" = false)
    (h3 : openAlertExists db.alerts b "unusual_activity" = false) :
    (checkAndCreateAlert db f data).alerts =
      db.alerts ++ binFullAdded (f "bin_full") b data
        ++ batteryAdded (f "sensor_fault") b data
        ++ temperatureAdded (f "unusual_activity") b data := by
  unfold checkAndCreateAlert
  rw [hb]
  have e1 : (binFullRule db (f "bin_full") b data).alerts =
      db.alerts ++ binFullAdded (f "bin_full") b data :=
    binFullRule_alerts h1
  have hx2 : openAlertExists (binFullRule db (f "bin_full") b data).alerts
      b "sensor_fault" = false := by
    rw [binFullRule_exists_ne (by decide)]
    exact h2
  have e2 : (batteryRule (binFullRule db (f "bin_full") b data)
      (f "sensor_fault") b data).alerts =
      (binFullRule db (f "bin_full") b data).alerts ++
        batteryAdded (f "sensor_fault") b data :=
    batteryRule_alerts hx2
  have hx3 : openAlertExists (batteryRule (binFullRule db (f "bin_full") b data)
      (f "sensor_fault") b data).alerts b "unusual_activity" = false := by
    rw [batteryRule_exists_ne (by decide), binFullRule_exists_ne (by decide)]
    exact h3
  have e3 : (temperatureRule
      (batteryRule (binFullRule db (f "bin_full") b data)
        (f "sensor_fault") b data) (f "unusual_activity") b data).alerts =
      (batteryRule (binFullRule db (f "bin_full") b data)
        (f "sensor_fault") b data).alerts ++
        temperatureAdded (f "unusual_activity") b data :=
    temperatureRule_alerts hx3
  rw [e3, e2, e1]

/-- The suffix of alert rows added by one alert-engine run, spelled out
per rule. -/
theorem alertsAdded_eq {db : DBState} {f : String → Bool} {data : Payload}
    {b : Int} (hb : data.binId = some b)
    (h1 : openAlertExists db.alerts b "bin_full" = false)
    (h2 : openAlertExists db.alerts b "sensor_fault" = false)
    (h3 : openAlertExists db.alerts b "unusual_activity" = false) :
    alertsAdded db f data =
      binFullAdded (f "bin_full") b data ++
        (batteryAdded (f "sensor_fault") b data ++
          temperatureAdded (f "unusual_activity") b data) := by
  unfold alertsAdded
  rw [checkAlert_alerts hb h1 h2 h3, List.append_assoc, List.append_assoc,
    List.drop_left]

/-- C7: threshold boundaries — evaluated against a container with no open
alerts, a fill of 74.9% adds no `bin_full` alert; 75.0% adds a
high-severity `bin_full` alert; 90.0% adds a critical (and no high)
`bin_full` alert; independently, battery below 20% adds a medium
`sensor_fault` alert and temperature above 45 °C adds a high
`unusual_activity` alert. -/
theorem C7_threshold_boundaries (db : DBState) (data : Payload) (b : Int)
    (hb : data.binId = some b)
    (h1 : openAlertExists db.alerts b "bin_full" = false)
    (h2 : openAlertExists db.alerts b "sensor_fault" = false)
    (h3 : openAlertExists db.alerts b "unusual_activity" = false) :
    (data.fillLevel = some ((749 : ℚ)/10) →
      ∀ a ∈ alertsAdded db (fun _ => false) data, a.alertType ≠ "bin_full") ∧
    (data.fillLevel = some (75 : ℚ) →
      ∃ a ∈ alertsAdded db (fun _ => false) data,
        a.alertType = "bin_full" ∧ a.severity = "high") ∧
    (data.fillLevel = some (90 : ℚ) →
      (∃ a ∈ alertsAdded db (fun _ => false) data,
        a.alertType = "bin_full" ∧ a.severity = "critical") ∧
      (∀ a ∈ alertsAdded db (fun _ => false) data,
        a.alertType = "bin_full" → a.severity = "critical")) ∧
    (∀ q : ℚ, data.batteryLevel = some q → q < 20 →
      ∃ a ∈ alertsAdded db (fun _ => false) data,
        a.alertType = "sensor_fault" ∧ a.severity = "medium") ∧
    (∀ q : ℚ, data.temperatureC = some q → q > 45 →
      ∃ a ∈ alertsAdded db (fun _ => false) data,
        a.alertType = "unusual_activity" ∧ a.severity = "high") := by
  rw [alertsAdded_eq hb h1 h2 h3]
  refine ⟨?_, ?_, ?_, ?_, ?_⟩
  · intro hfill a ha
    simp only [binFullAdded, batteryAdded, temperatureAdded, hfill,
      Option.getD_some] at ha
    norm_num at ha
    rcases ha with ⟨h, rfl⟩ | ⟨h, rfl⟩ <;> simp
  · intro hfill
    refine ⟨⟨b, "bin_full", "high",
      "Bin " ++ data.binCode.getD "None" ++ " is " ++ fmtQ ((75 : ℚ)) ++
        "% full - collection needed soon", "open"⟩, ?_, rfl, rfl⟩
    apply List.mem_append_left
    norm_num [binFullAdded, hfill]
  · intro hfill
    constructor
    · refine ⟨⟨b, "bin_full", "critical",
        "Bin " ++ data.binCode.getD "None" ++ " is " ++ fmtQ ((90 : ℚ)) ++
          "% full - requires immediate collection", "open"⟩, ?_, rfl, rfl⟩
      apply List.mem_append_left
      norm_num [binFullAdded, hfill]
    · intro a ha
      simp only [binFullAdded, batteryAdded, temperatureAdded, hfill,
        Option.getD_some] at ha
      norm_num at ha
      rcases ha with rfl | ⟨h, rfl⟩ | ⟨h, rfl⟩ <;> simp
  · intro q hq hlt
    refine ⟨⟨b, "sensor_fault", "medium",
      "Low battery warning for " ++ data.binCode.getD "None" ++ ": " ++
        fmtQ q ++ "%", "open"⟩, ?_, rfl, rfl⟩
    apply List.mem_append_right
    apply List.mem_append_left
    simp [batteryAdded, hq, hlt]
  · intro q hq hlt
    refine ⟨⟨b, "unusual_activity", "high",
      "High temperature detected in " ++ data.binCode.getD "None" ++ ": " ++
        fmtQ q ++ " degC", "open"⟩, ?_, rfl, rfl⟩
    apply List.mem_append_right
    apply List.mem_append_right
    simp [temperatureAdded, hq, hlt]

/-- Witness store for C7: no open alerts. -/
def dbC7 : DBState :=
  { sensors := [], bins := [], readings := [], alerts := [],
    nextSensorId := 1 }

/-- Witness payload for C7: fill exactly 75.0, battery 10, temperature
50, for container 3. -/
def payloadC7 : Payload :=
  { macAddress := StrField.missing, sensorCode := some "S", binId := some 3,
    binCode := some "B3", fillLevel := some 75, distanceCm := none,
    weightKg := none, temperatureC := some 50, humidity := none,
    gasLevel := none, batteryLevel := some 10, signalStrength := none,
    timestamp := none }

/-- Witness for C7 at the concrete state and payload. -/
theorem C7_threshold_boundaries_witness :
    (payloadC7.fillLevel = some ((749 : ℚ)/10) →
      ∀ a ∈ alertsAdded dbC7 (fun _ => false) payloadC7,
        a.alertType ≠ "bin_full") ∧
    (payloadC7.fillLevel = some (75 : ℚ) →
      ∃ a ∈ alertsAdded dbC7 (fun _ => false) payloadC7,
        a.alertType = "bin_full" ∧ a.severity = "high") ∧
    (payloadC7.fillLevel = some (90 : ℚ) →
      (∃ a ∈ alertsAdded dbC7 (fun _ => false) payloadC7,
        a.alertType = "bin_full" ∧ a.severity = "critical") ∧
      (∀ a ∈ alertsAdded dbC7 (fun _ => false) payloadC7,
        a.alertType = "bin_full" → a.severity = "critical")) ∧
    (∀ q : ℚ, payloadC7.batteryLevel = some q → q < 20 →
      ∃ a ∈ alertsAdded dbC7 (fun _ => false) payloadC7,
        a.alertType = "sensor_fault" ∧ a.severity = "medium") ∧
    (∀ q : ℚ, payloadC7.temperatureC = some q → q > 45 →
      ∃ a ∈ alertsAdded dbC7 (fun _ => false) payloadC7,
        a.alertType = "unusual_activity" ∧ a.severity = "high") :=
  C7_threshold_boundaries dbC7 payloadC7 3 rfl rfl rfl rfl

set_option maxRecDepth 4000 in
/-- Isolation of persistence faults: when the `bin_full` rule's
`_create_alert` hits a database fault (caught and rolled back inside
`_create_alert`), the remaining rules are still evaluated — the run adds
exactly the alerts of the fault-free run except the `bin_full` one. -/
theorem binFullFault_isolation (db : DBState) (data : Payload) (b : Int)
    (hb : data.binId = some b)
    (h1 : openAlertExists db.alerts b "bin_full" = false)
    (h2 : openAlertExists db.alerts b "sensor_fault" = false)
    (h3 : openAlertExists db.alerts b "unusual_activity" = false) :
    ∀ a : Alert,
      a ∈ alertsAdded db (fun t => t == "bin_full") data ↔
        (a ∈ alertsAdded db (fun _ => false) data ∧
          a.alertType ≠ "bin_full") := by
  intro a
  rw [alertsAdded_eq hb h1 h2 h3, alertsAdded_eq hb h1 h2 h3]
  have ebf : (("bin_full" : String) == "bin_full") = true := by decide
  have esf : (("sensor_fault" : String) == "bin_full") = false := by decide
  have eua : (("unusual_activity" : String) == "bin_full") = false := by decide
  simp only [ebf, esf, eua, binFullAdded, batteryAdded, temperatureAdded,
    eq_self_iff_true, if_true, Bool.false_eq_true, if_false]
  split_ifs <;> aesop

/-- Witness store for C8: no open alerts. -/
def dbC8 : DBState :=
  { sensors := [], bins := [], readings := [], alerts := [],
    nextSensorId := 1 }

/-- Witness payload for C8: all three rules fire (fill 95, battery 10,
temperature 50) for container 6. -/
def payloadC8 : Payload :=
  { macAddress := StrField.missing, sensorCode := some "S", binId := some 6,
    binCode := some "B6", fillLevel := some 95, distanceCm := none,
    weightKg := none, temperatureC := some 50, humidity := none,
    gasLevel := none, batteryLevel := some 10, signalStrength := none,
    timestamp := none }

/-- A telemetry value as decoded from JSON, with its dynamic type made
explicit: a number, a non-numeric string, or a missing key. -/
inductive TVal where
  | missing : TVal
  | num (q : ℚ) : TVal
  | str (s : String) : TVal
deriving DecidableEq, Repr

/-- `data.get(key, default)` followed by the first comparison against a
threshold: a missing key takes the numeric default, a number is used
as-is, and a non-numeric string makes the Python 3 comparison raise
`TypeError` (modelled as `Except.error`). -/
def asNum : TVal → ℚ → Except Unit ℚ
  | .missing, d => Except.ok d
  | .num q, _ => Except.ok q
  | .str _, _ => Except.error ()

/-- The fields of the payload that `check_and_create_alert` reads, with
the dynamic typing of the three telemetry values kept. -/
structure PayloadDyn where
  binId : Option Int
  binCode : Option String
  fillLevel : TVal
  batteryLevel : TVal
  temperatureC : TVal
deriving DecidableEq, Repr

/-- `DatabaseManager.check_and_create_alert` over dynamically typed
telemetry.  The three guards are evaluated in source order under the
function's single outer try/except (lines 149–183): a `TypeError` raised
by a guard comparison ends the run there, keeping the alerts already
committed by earlier `_create_alert` calls but evaluating no further
rule.  On well-typed payloads this agrees with `checkAndCreateAlert`
(`checkAndCreateAlertDyn_toDyn`). -/
def checkAndCreateAlertDyn (db : DBState) (f : String → Bool)
    (data : PayloadDyn) : DBState :=
  match data.binId with
  | none => db
  | some b =>
    match asNum data.fillLevel 0 with
    | Except.error _ => db
    | Except.ok fill =>
      let db1 :=
        if fill ≥ 90 then
          createAlert db (f "bin_full") b (data.binCode.getD "None")
            "bin_full" "critical"
            ("Bin " ++ data.binCode.getD "None" ++ " is " ++ fmtQ fill ++
              "% full - requires immediate collection")
        else if fill ≥ 75 then
          createAlert db (f "bin_full") b (data.binCode.getD "None")
            "bin_full" "high"
            ("Bin " ++ data.binCode.getD "None" ++ " is " ++ fmtQ fill ++
              "% full - collection needed soon")
        else db
      match asNum data.batteryLevel 100 with
      | Except.error _ => db1
      | Except.ok battery =>
        let db2 :=
          if battery < 20 then
            createAlert db1 (f "sensor_fault") b (data.binCode.getD "None")
              "sensor_fault" "medium"
              ("Low battery warning for " ++ data.binCode.getD "None" ++
                ": " ++ fmtQ battery ++ "%")
          else db1
        match asNum data.temperatureC 25 with
        | Except.error _ => db2
        | Except.ok temp =>
          if temp > 45 then
            createAlert db2 (f "unusual_activity") b
              (data.binCode.getD "None") "unusual_activity" "high"
              ("High temperature detected in " ++ data.binCode.getD "None" ++
                ": " ++ fmtQ temp ++ " degC")
          else db2

/-- Embedding of a well-typed payload into the dynamic view. -/
def toDynT : Option ℚ → TVal
  | none => TVal.missing
  | some q => TVal.num q

/-- The alert-relevant fields of a well-typed payload, dynamically. -/
def toDyn (data : Payload) : PayloadDyn :=
  { binId := data.binId, binCode := data.binCode,
    fillLevel := toDynT data.fillLevel,
    batteryLevel := toDynT data.batteryLevel,
    temperatureC := toDynT data.temperatureC }

/-- On well-typed telemetry the dynamic and the typed alert engines are
the same function. -/
theorem checkAndCreateAlertDyn_toDyn (db : DBState) (f : String → Bool)
    (data : Payload) :
    checkAndCreateAlertDyn db f (toDyn data) = checkAndCreateAlert db f data := by
  unfold checkAndCreateAlertDyn checkAndCreateAlert toDyn toDynT asNum
  unfold binFullRule batteryRule temperatureRule
  rcases hb : data.binId with _ | b <;>
    rcases hf : data.fillLevel with _ | qf <;>
    rcases hbat : data.batteryLevel with _ | qb <;>
    rcases ht : data.temperatureC with _ | qt <;>
    simp [hb, hf, hbat, ht]

/-- Store for the C8 counterexample: no open alerts. -/
def dbC8bad : DBState :=
  { sensors := [], bins := [], readings := [], alerts := [],
    nextSensorId := 1 }

/-- Payload for the C8 counterexample: the fill level arrived as the JSON
string `"92"`, while battery 10 and temperature 50 would make the
`sensor_fault` and `unusual_activity` rules fire. -/
def payloadC8bad : PayloadDyn :=
  { binId := some 6, binCode := some "B6", fillLevel := TVal.str "92",
    batteryLevel := TVal.num 10, temperatureC := TVal.num 50 }

/-- C8, counterexample: a failure *evaluating* the `bin_full` rule does
prevent the remaining rules.  With the ill-typed fill level the guard
comparison raises, the outer except of `check_and_create_alert` ends the
run, and no alert at all is created — although the same payload with a
numeric fill yields all three alerts. -/
theorem C8_counterexample :
    checkAndCreateAlertDyn dbC8bad (fun _ => false) payloadC8bad = dbC8bad ∧
    (checkAndCreateAlertDyn dbC8bad (fun _ => false)
        { payloadC8bad with fillLevel := TVal.num 92 }).alerts.map
      (fun a => (a.binId, a.alertType, a.severity)) =
      [((6 : Int), "bin_full", "critical"),
       ((6 : Int), "sensor_fault", "medium"),
       ((6 : Int), "unusual_activity", "high")] := by
  constructor
  · rfl
  · have hd1 : ("bin_full" : String) = "sensor_fault" ↔ False := by simp
    have hd2 : ("bin_full" : String) = "unusual_activity" ↔ False := by simp
    have hd3 : ("sensor_fault" : String) = "unusual_activity" ↔ False := by
      simp
    norm_num [checkAndCreateAlertDyn, asNum, createAlert, openAlertExists,
      isOpenFor, dbC8bad, payloadC8bad, hd1, hd2, hd3]

/-- C8, amended: persistence is isolated — a database failure inside one
rule's `_create_alert` (caught and rolled back there) does not prevent
the remaining rules, and removes exactly that rule's alert from the run's
additions; but evaluation is not — all three guards share
`check_and_create_alert`'s outer try/except, so an exception evaluating
the `bin_full` guard (a non-numeric fill level) aborts the
`sensor_fault` and `unusual_activity` rules for that reading. -/
theorem C8_rule_isolation_amended (db : DBState) (data : Payload) (b : Int)
    (hb : data.binId = some b)
    (h1 : openAlertExists db.alerts b "bin_full" = false)
    (h2 : openAlertExists db.alerts b "sensor_fault" = false)
    (h3 : openAlertExists db.alerts b "unusual_activity" = false) :
    (∀ a : Alert,
      a ∈ alertsAdded db (fun t => t == "bin_full") data ↔
        (a ∈ alertsAdded db (fun _ => false) data ∧
          a.alertType ≠ "bin_full")) ∧
    (∀ (dyn : PayloadDyn) (f : String → Bool) (s : String),
      dyn.fillLevel = TVal.str s → checkAndCreateAlertDyn db f dyn = db) := by
  constructor
  · exact binFullFault_isolation db data b hb h1 h2 h3
  · intro dyn f s hs
    unfold checkAndCreateAlertDyn
    cases hd : dyn.binId with
    | none => rfl
    | some bb =>
      rw [hs]
      rfl

/-- Witness for C8 (amended) at the concrete state and payload. -/
theorem C8_rule_isolation_amended_witness :
    (∀ a : Alert,
      a ∈ alertsAdded dbC8 (fun t => t == "bin_full") payloadC8 ↔
        (a ∈ alertsAdded dbC8 (fun _ => false) payloadC8 ∧
          a.alertType ≠ "bin_full")) ∧
    (∀ (dyn : PayloadDyn) (f : String → Bool) (s : String),
      dyn.fillLevel = TVal.str s → checkAndCreateAlertDyn dbC8 f dyn = dbC8) :=
  C8_rule_isolation_amended dbC8 payloadC8 6 rfl rfl rfl rfl
